import Mathlib

/-!
Shallow embedding of the computational core of the vedic behavioral calendar
service.  The definitions below translate, function by function, the Python
sources `app/core/constants.py`, `app/core/astrology_rules.py`,
`app/core/scoring.py` and `app/core/jh_report_parser.py`.  Python dictionaries
become total functions returning `Option`, raising code paths become `Option` /
`Except` values, floats become rationals, and Python integers become `Int` (or
`Nat` where the source value is provably non-negative).  The theorems following
the definitions settle the specification claims about this code.
-/

namespace VedicCalendar

/-- The fixed 12-sign order `RASI_ORDER` from `app/core/constants.py`. -/
def RASI_ORDER : List String :=
  ["Ar", "Ta", "Ge", "Cn", "Le", "Vi", "Li", "Sc", "Sg", "Cp", "Aq", "Pi"]

/-- Embedding of `rasi_to_index` (`astrology_rules.py`): membership check then
`RASI_ORDER.index`; the raising branch is modelled as `none`. -/
def rasi_to_index (rasi : String) : Option Nat :=
  if rasi ∈ RASI_ORDER then some (RASI_ORDER.indexOf rasi) else none

/-- Embedding of `house_from_lagna_and_moon` (`astrology_rules.py`):
`((mi - li) % 12) + 1` with Python modulo (non-negative for a positive
divisor, matching `Int.emod`). -/
def house_from_lagna_and_moon (lagna_rasi moon_rasi : String) : Option Nat := do
  let li ← rasi_to_index lagna_rasi
  let mi ← rasi_to_index moon_rasi
  pure ((((mi : Int) - (li : Int)) % 12).toNat + 1)

/-- The `PLANET_ALIASES` dictionary from `app/core/scoring.py`. -/
def PLANET_ALIASES (name : String) : Option String :=
  match name with
  | "Sun" => some "Sun"
  | "Moon" => some "Moon"
  | "Mars" => some "Mars"
  | "Merc" => some "Merc"
  | "Mercury" => some "Merc"
  | "Jup" => some "Jup"
  | "Jupiter" => some "Jup"
  | "Ven" => some "Ven"
  | "Venus" => some "Ven"
  | "Sat" => some "Sat"
  | "Saturn" => some "Sat"
  | _ => none

/-- Python `str.strip()`: drop leading and trailing whitespace (structural
model over the character list, so that it reduces in the kernel). -/
def pyStrip (s : String) : String :=
  ⟨((s.toList.dropWhile Char.isWhitespace).reverse.dropWhile
      Char.isWhitespace).reverse⟩

/-- Embedding of `_normalize_planet_name` (`scoring.py`):
`PLANET_ALIASES.get((name or "").strip())`. -/
def normalize_planet_name (name : String) : Option String :=
  PLANET_ALIASES (pyStrip name)

/-! Tara bala (claim C4).  `TARA_INDEX_TO_LABEL` is the 1-to-9 dictionary from
`app/core/constants.py`; indexing a Python dict raises on a missing key, hence
the `Option` result. -/

/-- The `TARA_INDEX_TO_LABEL` dictionary from `app/core/constants.py`. -/
def TARA_INDEX_TO_LABEL (idx : Nat) : Option String :=
  match idx with
  | 1 => some "Janma"
  | 2 => some "Sampat"
  | 3 => some "Vipat"
  | 4 => some "Kshem"
  | 5 => some "Pratyari"
  | 6 => some "Sadhana"
  | 7 => some "Naidhana"
  | 8 => some "Mitra"
  | 9 => some "ParamaMitra"
  | _ => none

/-- Index-level core of `tara_bala_label` (`astrology_rules.py` lines 367-372):
given the natal and transit mansion indices already produced by
`nak_to_index`, compute `count = ((t - n) % 27) + 1`,
`tara_idx = ((count - 1) % 9) + 1` and look the result up in
`TARA_INDEX_TO_LABEL`. -/
def tara_bala_label_idx (n t : Nat) : Option String :=
  let count : Nat := ((((t : Int) - (n : Int)) % 27)).toNat + 1
  let taraIdx : Nat := ((count - 1) % 9) + 1
  TARA_INDEX_TO_LABEL taraIdx

/-- The nine tara labels in cycle order, written out as the specification
lists them (used as the spec-side reference for claim C4). -/
def specNineTaraLabels : List String :=
  ["Janma", "Sampat", "Vipat", "Kshem", "Pratyari", "Sadhana", "Naidhana",
   "Mitra", "ParamaMitra"]

/-! Dasha relationship (claim C3). -/

/-- Embedding of `relationship_from_houses` (`scoring.py` lines 138-154).
The Python dict lookup `mapping[diff]` is total because
`diff = (antar - maha) % 12` lies in `0..11`; the wildcard arm is the
`diff = 11` entry of the dictionary. -/
def relationship_from_houses (maha_house antar_house : Int) : String :=
  match ((antar_house - maha_house) % 12).toNat with
  | 0 => "1/1"
  | 1 => "2/12"
  | 2 => "3/11"
  | 3 => "4/10"
  | 4 => "5/9"
  | 5 => "6/8"
  | 6 => "7/7"
  | 7 => "6/8"
  | 8 => "5/9"
  | 9 => "4/10"
  | 10 => "3/11"
  | _ => "2/12"

/-- Embedding of `get_dasha_relationship` (`scoring.py` lines 157-164); the
`isinstance(_, int)` guards on the two profile fields become `Option Int`. -/
def get_dasha_relationship (maha antar : String)
    (maha_house antar_house : Option Int) : String :=
  match maha_house, antar_house with
  | some mh, some ah => relationship_from_houses mh ah
  | _, _ => if maha = antar then "1/1" else "7/7"

/-- The `dasha_relative_matrix` table of `DEFAULT_RULES` (`scoring.py`). -/
def dasha_relative_matrix (rel : String) : Option Int :=
  match rel with
  | "5/9" => some 95
  | "3/11" => some 90
  | "4/10" => some 85
  | "1/1" => some 80
  | "7/7" => some 75
  | "2/12" => some 65
  | "6/8" => some 60
  | _ => none

/-- The base-score lookup of `compute_base_score` (`scoring.py` line 172):
`int(base_map.get(rel, 70))`. -/
def base_score_of (rel : String) : Int :=
  (dasha_relative_matrix rel).getD 70

/-- Spec-side fixed 12-entry relationship table for claim C3, indexed by
`diff = (subHouse - majorHouse) mod 12`. -/
def specRelTable (diff : Nat) : String :=
  ["1/1", "2/12", "3/11", "4/10", "5/9", "6/8", "7/7", "6/8", "5/9", "4/10",
   "3/11", "2/12"].getD diff ""

/-! UTC offset parsing (claim C7).  The regular expression of
`_parse_birth_utc_offset_minutes` (`jh_report_parser.py` lines 93-109) captures
a possibly signed hour group, unsigned minute and second groups, and the
direction word; the arithmetic on those captures is embedded here. -/

/-- Embedding of the conversion performed by `_parse_birth_utc_offset_minutes`
on the regex captures: `abs(hours) * 60 + minutes + (1 if seconds >= 30 else
0)`, negated for a `West` direction. -/
def parse_birth_utc_offset_minutes (hours : Int) (minutes seconds : Nat)
    (direction : String) : Int :=
  let total : Int := (hours.natAbs : Int) * 60 + (minutes : Int) +
    (if 30 ≤ seconds then 1 else 0)
  let sign : Int := if direction = "East" then 1 else -1
  sign * total

/-! Signal classification and rule loading (claims C2 and C6).  Only the
`signal_thresholds` section of the rule catalog is relevant to these claims;
the dictionary is modelled as a structure whose `Option` fields record key
presence, so that `dict.get(key, default)` becomes `Option.getD`. -/

/-- The `signal_thresholds` sub-dictionary of a rule catalog; `none` models an
absent key. -/
structure SignalThresholdsCfg where
  green : Option ℚ
  yellow : Option ℚ
  vipat_pratyari_force_green : Option ℚ
deriving DecidableEq

/-- The slice of an effective rule catalog used by `classify_signal`.  After
`_load_rules` the top-level `signal_thresholds` key is always present, so the
field is not optional (the `rules.get` fallback inside `classify_signal` is
unreachable). -/
structure RulesCfg where
  signal_thresholds : SignalThresholdsCfg
deriving DecidableEq

/-- An external rule configuration document: a partial top-level override
(`rules.yaml`); `none` models an absent top-level key. -/
structure PartialRulesCfg where
  signal_thresholds : Option SignalThresholdsCfg
deriving DecidableEq

/-- The `signal_thresholds` entry of `DEFAULT_RULES` (`scoring.py` line 97):
`{"green": 75, "yellow": 60, "vipat_pratyari_force_green": 85}`. -/
def DEFAULT_RULES_CFG : RulesCfg :=
  ⟨⟨some 75, some 60, some 85⟩⟩

/-- Embedding of `_load_rules` (`scoring.py` lines 123-131): on any loading
exception the compiled-in defaults are returned; otherwise each top-level key
of the loaded document shallowly replaces the default entry. -/
def _load_rules (loaded : Except Unit PartialRulesCfg) : RulesCfg :=
  match loaded with
  | Except.error _ => DEFAULT_RULES_CFG
  | Except.ok cfg => ⟨cfg.signal_thresholds.getD DEFAULT_RULES_CFG.signal_thresholds⟩

/-- Embedding of `classify_signal` (`scoring.py` lines 587-598).  Note the
call-site literal defaults `70`, `85` and `60` used when a key is missing from
the effective `signal_thresholds` dictionary. -/
def classify_signal (rules : RulesCfg) (total_index : ℚ) (tara_label : String) :
    String :=
  if tara_label = "Naidhana" then "red"
  else
    let th := rules.signal_thresholds
    if th.green.getD 70 ≤ total_index then
      if (tara_label = "Vipat" ∨ tara_label = "Pratyari") ∧
          total_index < th.vipat_pratyari_force_green.getD 85 then "yellow"
      else "green"
    else if th.yellow.getD 60 ≤ total_index then "yellow"
    else "red"

/-- A partial `rules.yaml` override whose `signal_thresholds` table omits the
`green` key (used by claim C6). -/
def partialThresholdsNoGreen : PartialRulesCfg :=
  ⟨some ⟨none, some 60, some 85⟩⟩

/-! Planetary dignity (claim C8).  The `status_rules` tables of
`DEFAULT_RULES` (`scoring.py` lines 81-96). -/

/-- The `exalted` table of `DEFAULT_RULES.status_rules`. -/
def status_exalted (p : String) : Option String :=
  match p with
  | "Sun" => some "Ar"
  | "Moon" => some "Ta"
  | "Mars" => some "Cp"
  | "Merc" => some "Vi"
  | "Jup" => some "Cn"
  | "Ven" => some "Pi"
  | "Sat" => some "Li"
  | _ => none

/-- The `own_signs` table of `DEFAULT_RULES.status_rules`; the `.get(p, [])`
fallback is the wildcard arm. -/
def status_own_signs (p : String) : List String :=
  match p with
  | "Sun" => ["Le"]
  | "Moon" => ["Cn"]
  | "Mars" => ["Ar", "Sc"]
  | "Merc" => ["Ge", "Vi"]
  | "Jup" => ["Sg", "Pi"]
  | "Ven" => ["Ta", "Li"]
  | "Sat" => ["Cp", "Aq"]
  | _ => []

/-- The `debilitated` table of `DEFAULT_RULES.status_rules`. -/
def status_debilitated (p : String) : Option String :=
  match p with
  | "Sun" => some "Li"
  | "Moon" => some "Sc"
  | "Mars" => some "Cn"
  | "Merc" => some "Pi"
  | "Jup" => some "Cp"
  | "Ven" => some "Vi"
  | "Sat" => some "Ar"
  | _ => none

/-- The `benefics` list of `DEFAULT_RULES.status_rules`. -/
def status_benefics : List String := ["Jup", "Ven", "Merc", "Moon"]

/-- The `malefics` list of `DEFAULT_RULES.status_rules`. -/
def status_malefics : List String := ["Sun", "Mars", "Sat"]

/-- Embedding of `_status_multiplier` (`scoring.py` lines 282-320) under the
default `status_rules` tables; only the numeric multiplier of the returned
pair is modelled (the diagnostic dictionary replays the same booleans). -/
def _status_multiplier (planet transit_rasi : String) (is_retrograde : Bool) :
    ℚ :=
  let p := (normalize_planet_name planet).getD planet
  let is_exalted := status_exalted p = some transit_rasi
  let is_own := transit_rasi ∈ status_own_signs p
  let is_debilitated := status_debilitated p = some transit_rasi
  let m : ℚ :=
    if is_debilitated then 0.60
    else if is_exalted then 1.25
    else if is_own then 1.10
    else 1.0
  if is_retrograde then
    if p ∈ status_benefics then m * 0.8
    else if p ∈ status_malefics then m * 1.2
    else m
  else m

/-- Spec-side dignity factor for claim C8: 0.60 for the debilitation sign,
else 1.25 for the exaltation sign, else 1.10 for an own sign, else 1. -/
def spec_dignity_factor (p sign : String) : ℚ :=
  if status_debilitated p = some sign then 0.60
  else if status_exalted p = some sign then 1.25
  else if sign ∈ status_own_signs p then 1.10
  else 1

/-- Spec-side retrograde factor for claim C8: 0.8 when retrograde and benefic,
1.2 when retrograde and malefic, 1 otherwise. -/
def spec_retro_factor (p : String) (retro : Bool) : ℚ :=
  if retro ∧ p ∈ status_benefics then 0.8
  else if retro ∧ p ∈ status_malefics then 1.2
  else 1

/-- The seven tracked planet abbreviations produced by
`_normalize_planet_name`. -/
def trackedPlanets : List String :=
  ["Sun", "Moon", "Mars", "Merc", "Jup", "Ven", "Sat"]

/-! Vedha obstruction (claims C1 and C10). -/

/-- Embedding of the loop body of `_is_exception_pair` (`scoring.py` lines
222-230) for a single exception entry: entries that are not two-element lists,
or whose members do not normalize, are skipped (`false`); otherwise the Python
set equality `{t, o} == {a, b}` decides the match. -/
def exception_entry_match (t o : String) (pair : List String) : Bool :=
  match pair with
  | [pa, pb] =>
    match normalize_planet_name pa, normalize_planet_name pb with
    | some a, some b => decide (({t, o} : Finset String) = ({a, b} : Finset String))
    | _, _ => false
  | _ => false

/-- Embedding of `_is_exception_pair` (`scoring.py` lines 217-231): both
arguments are normalized (`false` when either fails) and the exception list is
scanned for a set-equal pair. -/
def _is_exception_pair (target obstructor : String)
    (exceptions : List (List String)) : Bool :=
  match normalize_planet_name target, normalize_planet_name obstructor with
  | some t, some o => exceptions.any (exception_entry_match t o)
  | _, _ => false

/-- One entry of the `vedha_rules` table; the `Option` fields model the
`rule.get("obstructor_house", -1)`, `rule.get("planet_scope", "all")` and
`rule.get("exceptions", [])` lookups with their call-site defaults. -/
structure VedhaRule where
  obstructor_house : Option Int
  planet_scope : Option String
  exceptions : Option (List (List String))
deriving DecidableEq

/-- The `vedha_rules` table of `DEFAULT_RULES.gochara_rules` (`scoring.py`
lines 72-79), keyed by the decimal string of the target house. -/
def vedha_rules_default (house : String) : Option VedhaRule :=
  match house with
  | "3" => some ⟨some 12, some "all", some [["Sun", "Sat"]]⟩
  | "6" => some ⟨some 9, some "all", some [["Sun", "Sat"]]⟩
  | "11" => some ⟨some 5, some "all", some []⟩
  | "2" => some ⟨some 12, some "venus_only", some []⟩
  | "4" => some ⟨some 10, some "venus_only", some []⟩
  | "12" => some ⟨some 2, some "venus_only", some []⟩
  | _ => none

/-- Embedding of the obstructor-scan loop body of `_vedha_hit` (`scoring.py`
lines 253-277) for one `(planet, rasi)` entry of the transit dictionary: every
`continue` becomes `false`, the `return True` becomes `true`.  The raising
`house_from_lagna_and_moon` call is the `none` case of its `Option` result. -/
def vedha_entry_hits (target_planet base_rasi : String) (obstructor_house : Int)
    (exceptions : List (List String)) (entry : String × String) : Bool :=
  match normalize_planet_name entry.1 with
  | none => false
  | some obs_n =>
    if obs_n = "Moon" then false
    else if obs_n ∈ (["Rah", "Ket"] : List String) then false
    else if some obs_n = normalize_planet_name target_planet then false
    else
      match house_from_lagna_and_moon base_rasi entry.2 with
      | none => false
      | some h =>
        if (h : Int) ≠ obstructor_house then false
        else if _is_exception_pair target_planet obs_n exceptions then false
        else true

/-- Embedding of `_vedha_hit` (`scoring.py` lines 234-279); the transit
dictionary is an association list scanned in order, and only the boolean
component of the returned pair is modelled (the detail payload records the
first obstructor found and is irrelevant to the claims). -/
def _vedha_hit (target_planet : String) (target_house : Option Nat)
    (base_rasi : Option String) (transit_planets : List (String × String))
    (vedha_rules : String → Option VedhaRule) : Bool :=
  match target_house, base_rasi with
  | some th, some br =>
    match vedha_rules (toString th) with
    | none => false
    | some rule =>
      if rule.planet_scope.getD "all" = "venus_only" ∧
          normalize_planet_name target_planet ≠ some "Ven" then false
      else
        transit_planets.any
          (vedha_entry_hits target_planet br (rule.obstructor_house.getD (-1))
            (rule.exceptions.getD []))
  | _, _ => false

/-- Embedding of the obstruction step of `compute_gochara_v2` (`scoring.py`
lines 391-408): the blended raw score is forced to zero when either view hit
and the score is positive. -/
def apply_vedha (s_raw : ℚ) (hit_l hit_c : Bool) : ℚ :=
  if (hit_l || hit_c) ∧ 0 < s_raw then 0 else s_raw

/-! Dasha timeline lookup (claim C5) and timeline construction (claim C9),
from `app/core/jh_report_parser.py`.  Python `datetime.date` values become the
`PDate` triple with its lexicographic order. -/

/-- A calendar date as Python `datetime.date` carries it. -/
structure PDate where
  year : Nat
  month : Nat
  day : Nat
deriving DecidableEq

/-- The lexicographic order on dates used by Python date comparison. -/
def PDate.le (a b : PDate) : Prop :=
  a.year < b.year ∨ (a.year = b.year ∧
    (a.month < b.month ∨ (a.month = b.month ∧ a.day ≤ b.day)))

instance (a b : PDate) : Decidable (PDate.le a b) := by
  unfold PDate.le; infer_instance

/-- One `(maha, antar, start_date)` triple of the vimsottari timeline. -/
abbrev DashaEntry := String × String × PDate

/-- Comparison of timeline entries by their start date. -/
def entry_le (a b : DashaEntry) : Prop := PDate.le a.2.2 b.2.2

instance : DecidableRel entry_le := fun a b => by
  unfold entry_le; infer_instance

instance : IsTotal DashaEntry entry_le :=
  ⟨fun a b => by unfold entry_le PDate.le; omega⟩

instance : IsTrans DashaEntry entry_le :=
  ⟨fun a b c h1 h2 => by
    unfold entry_le PDate.le at *
    omega⟩

/-- The scanning loop of `get_current_dasha` (`jh_report_parser.py` lines
307-312): walk the timeline keeping the last entry whose date is at most
`today`, stopping at the first later entry. -/
def dasha_scan (today : PDate) :
    List DashaEntry → Option DashaEntry → Option DashaEntry
  | [], cur => cur
  | e :: rest, cur =>
    if PDate.le e.2.2 today then dasha_scan today rest (some e) else cur

/-- Embedding of `get_current_dasha` (`jh_report_parser.py` lines 303-318).
The `timeline[0]` fallback raises `IndexError` on an empty timeline, modelled
as `none`. -/
def get_current_dasha (timeline : List DashaEntry) (today : PDate) :
    Option (String × String) :=
  match dasha_scan today timeline none with
  | some e => some (e.1, e.2.1)
  | none =>
    match timeline with
    | [] => none
    | e :: _ => some (e.1, e.2.1)

/-- Spec-side timeline lookup for claim C5: the last entry whose start date is
at most the query date, or the first entry when every start date is later. -/
def spec_dasha_lookup (timeline : List DashaEntry) (today : PDate) :
    Option (String × String) :=
  match (timeline.filter fun e => decide (PDate.le e.2.2 today)).getLast? with
  | some e => some (e.1, e.2.1)
  | none => timeline.head?.map fun e => (e.1, e.2.1)

/-- The `PLANETS` token set of `jh_report_parser.py`. -/
def PLANETS : List String :=
  ["Sun", "Moon", "Mars", "Merc", "Jup", "Ven", "Sat", "Rah", "Ket"]

/-- Embedding of the `is_date` helper of `parse_vimsottari_timeline`
(`jh_report_parser.py` lines 261-262): the anchored pattern
`\d{4}-\d{2}-\d{2}`. -/
def is_date (s : String) : Bool :=
  match s.toList with
  | [y1, y2, y3, y4, s1, m1, m2, s2, d1, d2] =>
    y1.isDigit && y2.isDigit && y3.isDigit && y4.isDigit && s1 == '-' &&
    m1.isDigit && m2.isDigit && s2 == '-' && d1.isDigit && d2.isDigit
  | _ => false

/-- Decimal value of a digit string, as Python `int` reads the split groups. -/
def digitsToNat (cs : List Char) : Nat :=
  cs.foldl (fun acc c => acc * 10 + (c.toNat - '0'.toNat)) 0

/-- Gregorian leap-year rule used by Python `datetime.date` validation. -/
def is_leap_year (y : Nat) : Bool :=
  y % 4 == 0 && (y % 100 != 0 || y % 400 == 0)

/-- Days in a month per Python `datetime.date` validation. -/
def days_in_month (y m : Nat) : Nat :=
  if m = 2 then (if is_leap_year y then 29 else 28)
  else if m ∈ ([4, 6, 9, 11] : List Nat) then 30
  else 31

/-- Python `datetime.date(y, m, d)` construction: `none` models the
`ValueError` raised on an out-of-range component. -/
def mk_pdate (y m d : Nat) : Option PDate :=
  if 1 ≤ y ∧ y ≤ 9999 ∧ 1 ≤ m ∧ m ≤ 12 ∧ 1 ≤ d ∧ d ≤ days_in_month y m then
    some ⟨y, m, d⟩
  else none

/-- The `y, mo, da = map(int, dt.split("-")); date(y, mo, da)` step of
`parse_vimsottari_timeline`, applied to a token that passed `is_date`. -/
def date_of_token (s : String) : Option PDate :=
  match s.toList with
  | [y1, y2, y3, y4, _, m1, m2, _, d1, d2] =>
    mk_pdate (digitsToNat [y1, y2, y3, y4]) (digitsToNat [m1, m2])
      (digitsToNat [d1, d2])
  | _ => none

/-- The `(antar, date)` pair-scan loop of `parse_vimsottari_timeline`
(`jh_report_parser.py` lines 281-288): consume token pairs while the first is
a planet and the second matches the date pattern, stopping at the first
mismatch; a pattern-matching token that is not a valid calendar date raises
(`Except.error`). -/
def scan_antar_pairs (maha : String) :
    List String → Except Unit (List DashaEntry)
  | antar :: dt :: rest =>
    if antar ∈ PLANETS ∧ is_date dt then
      match date_of_token dt with
      | some d =>
        match scan_antar_pairs maha rest with
        | Except.error e => Except.error e
        | Except.ok tail => Except.ok ((maha, antar, d) :: tail)
      | none => Except.error ()
    else Except.ok []
  | _ => Except.ok []

/-- The continuation-line branch of `parse_vimsottari_timeline`: a line that
is not a maha-block start is scanned from its first token under the current
maha planet, and raises when no maha block has been seen yet. -/
def timeline_continuation (st : Option String × List DashaEntry)
    (tokens : List String) : Except Unit (Option String × List DashaEntry) :=
  match st.1 with
  | none => Except.error ()
  | some m =>
    match scan_antar_pairs m tokens with
    | Except.error e => Except.error e
    | Except.ok ps => Except.ok (st.1, st.2 ++ ps)

/-- Processing of one line of the vimsottari block (`jh_report_parser.py`
lines 264-288): blank lines are skipped; a line whose first three tokens are
planet, planet, date starts a new maha block and is scanned from its second
token; any other line is a continuation. -/
def process_timeline_line (st : Option String × List DashaEntry)
    (tokens : List String) : Except Unit (Option String × List DashaEntry) :=
  match tokens with
  | [] => Except.ok st
  | t0 :: t1 :: t2 :: rest =>
    if t0 ∈ PLANETS ∧ t1 ∈ PLANETS ∧ is_date t2 then
      match scan_antar_pairs t0 (t1 :: t2 :: rest) with
      | Except.error e => Except.error e
      | Except.ok ps => Except.ok (some t0, st.2 ++ ps)
    else timeline_continuation st (t0 :: t1 :: t2 :: rest)
  | _ => timeline_continuation st tokens

/-- The line loop of `parse_vimsottari_timeline`, folding
`process_timeline_line` over the tokenized lines of the block. -/
def run_timeline_lines (st : Option String × List DashaEntry) :
    List (List String) → Except Unit (Option String × List DashaEntry)
  | [] => Except.ok st
  | tokens :: rest =>
    match process_timeline_line st tokens with
    | Except.error e => Except.error e
    | Except.ok st' => run_timeline_lines st' rest

/-- The `seen`-set deduplication of `parse_vimsottari_timeline`
(`jh_report_parser.py` lines 292-298): keep the first occurrence of each exact
triple. -/
def dedup_keep_first : List DashaEntry → List DashaEntry → List DashaEntry
  | [], _ => []
  | e :: rest, seen =>
    if e ∈ seen then dedup_keep_first rest seen
    else e :: dedup_keep_first rest (e :: seen)

/-- Embedding of `parse_vimsottari_timeline` (`jh_report_parser.py` lines
250-300) over the tokenized lines of the vimsottari block (a blank line is the
empty token list): collect all triples, sort them stably by start date
(Python `list.sort(key=...)`), then deduplicate by exact triple equality. -/
def parse_vimsottari_timeline (lines : List (List String)) :
    Except Unit (List DashaEntry) :=
  match run_timeline_lines (none, []) lines with
  | Except.error e => Except.error e
  | Except.ok st =>
    Except.ok (dedup_keep_first (List.insertionSort entry_le st.2) [])

/-- Tokenized demonstration block for the claim C9 witness. -/
def demoLines : List (List String) :=
  [["Jup", "Jup", "1998-02-01", "Sat", "2000-03-20"],
   ["Merc", "2002-10-06"]]

/-- The timeline produced from `demoLines`. -/
def demoTl : List DashaEntry :=
  [("Jup", "Jup", ⟨1998, 2, 1⟩), ("Jup", "Sat", ⟨2000, 3, 20⟩),
   ("Jup", "Merc", ⟨2002, 10, 6⟩)]

/-- Demonstration timeline for the claim C5 witness. -/
def demoTimeline : List DashaEntry :=
  [("Jup", "Jup", ⟨1998, 2, 1⟩), ("Jup", "Sat", ⟨2000, 3, 20⟩),
   ("Jup", "Merc", ⟨2002, 10, 6⟩)]

/-! Theorems settling the claims. -/

/-- Claim C7: for every Time Zone line of the form `±H:MM:SS (East|West of
GMT)`, the parsed value in signed minutes is `|H|*60 + MM`, plus 1 when
`SS ≥ 30`, positive for East and negative for West; in particular
`8:00:00 (East of GMT)` parses to `+480` and `19:30:35 (West of GMT)` parses
to `-1171`. -/
theorem utc_offset_minutes_spec :
    (∀ (h : Int) (mm ss : Nat),
      parse_birth_utc_offset_minutes h mm ss "East" =
        (h.natAbs : Int) * 60 + mm + (if 30 ≤ ss then 1 else 0) ∧
      parse_birth_utc_offset_minutes h mm ss "West" =
        -((h.natAbs : Int) * 60 + mm + (if 30 ≤ ss then 1 else 0))) ∧
    parse_birth_utc_offset_minutes 8 0 0 "East" = 480 ∧
    parse_birth_utc_offset_minutes 19 30 35 "West" = -1171 := by
  refine ⟨fun h mm ss => ⟨?_, ?_⟩, by decide, by decide⟩
  · simp [parse_birth_utc_offset_minutes]
  · simp [parse_birth_utc_offset_minutes]

/-- Claim C2: under the default thresholds, the signal is red whenever the
tara label is `Naidhana`; otherwise an index of at least 75 yields green
unless the label is `Vipat` or `Pratyari` and the index is below 85 (then
yellow); otherwise an index of at least 60 yields yellow and anything lower
yields red. -/
theorem classify_signal_default_spec :
    ∀ (idx : ℚ) (label : String),
      classify_signal DEFAULT_RULES_CFG idx label =
        if label = "Naidhana" then "red"
        else if 75 ≤ idx then
          if (label = "Vipat" ∨ label = "Pratyari") ∧ idx < 85 then "yellow"
          else "green"
        else if 60 ≤ idx then "yellow"
        else "red" := by
  intro idx label
  rfl

/-- Helper for claim C4: the nine-cycle index-to-label dictionary agrees with
the ordered label list. -/
theorem tara_index_label_eq_list :
    ∀ k : Nat, k < 9 →
      TARA_INDEX_TO_LABEL (k + 1) = some (specNineTaraLabels.getD k "") := by
  decide

/-- Claim C4: the tara-bala label of natal mansion index `n` and transit
mansion index `t` is the `((t - n) mod 27) mod 9`-th entry of the nine fixed
labels in order; consequently the label depends only on `(t - n) mod 27`
(period 27), and `label(n, n) = "Janma"` for every mansion `n`. -/
theorem tara_bala_label_spec :
    (∀ n t : Nat,
      tara_bala_label_idx n t =
        some (specNineTaraLabels.getD
          (((((t : Int) - (n : Int)) % 27).toNat) % 9) "")) ∧
    (∀ n t t' : Nat,
      ((t : Int) - (n : Int)) % 27 = ((t' : Int) - (n : Int)) % 27 →
      tara_bala_label_idx n t = tara_bala_label_idx n t') ∧
    (∀ n : Nat, tara_bala_label_idx n n = some "Janma") := by
  refine ⟨fun n t => ?_, fun n t t' hEq => ?_, fun n => ?_⟩
  · unfold tara_bala_label_idx
    have h9 : ((((t : Int) - (n : Int)) % 27).toNat) % 9 < 9 :=
      Nat.mod_lt _ (by norm_num)
    simpa using tara_index_label_eq_list _ h9
  · unfold tara_bala_label_idx
    rw [hEq]
  · unfold tara_bala_label_idx
    simp
    rfl

/-- Witness for claim C4 at concrete mansion indices: Visakha (15) to
Anuradha (16) is the second tara (Sampat), the diagonal gives Janma, and the
label only depends on the mansion difference modulo 27. -/
theorem tara_bala_label_spec_witness :
    tara_bala_label_idx 15 16 =
      some (specNineTaraLabels.getD ((((16 : Int) - 15) % 27).toNat % 9) "") ∧
    tara_bala_label_idx 3 3 = some "Janma" ∧
    tara_bala_label_idx 0 2 = tara_bala_label_idx 0 29 :=
  ⟨tara_bala_label_spec.1 15 16, tara_bala_label_spec.2.2 3,
    tara_bala_label_spec.2.1 0 2 29 (by decide)⟩

/-- Claim C3: for natal houses in `1..12` the relationship code is the fixed
12-entry table at `diff = (subHouse - majorHouse) mod 12` (so offsets 5 and 7
share `6/8` and offset 4 gives `5/9`); with a missing house the code is `1/1`
when the major and sub planets coincide and `7/7` otherwise; and a code
missing from the relationship table scores the default 70. -/
theorem dasha_relationship_spec :
    (∀ (mp sp : String) (mh ah : Int), 1 ≤ mh → mh ≤ 12 → 1 ≤ ah → ah ≤ 12 →
      get_dasha_relationship mp sp (some mh) (some ah) =
        specRelTable (((ah - mh) % 12).toNat)) ∧
    specRelTable 5 = "6/8" ∧ specRelTable 7 = "6/8" ∧ specRelTable 4 = "5/9" ∧
    (∀ (mp sp : String) (mh ah : Option Int), mh = none ∨ ah = none →
      get_dasha_relationship mp sp mh ah =
        if mp = sp then "1/1" else "7/7") ∧
    (∀ rel : String, dasha_relative_matrix rel = none →
      base_score_of rel = 70) := by
  refine ⟨?_, rfl, rfl, rfl, ?_, ?_⟩
  · intro mp sp mh ah _ _ _ _
    show relationship_from_houses mh ah = _
    have h0 : (0 : Int) ≤ (ah - mh) % 12 := Int.emod_nonneg _ (by norm_num)
    have h1 : (ah - mh) % 12 < 12 := Int.emod_lt_of_pos _ (by norm_num)
    have hd : ((ah - mh) % 12).toNat < 12 := by omega
    unfold relationship_from_houses specRelTable
    generalize ((ah - mh) % 12).toNat = d at hd ⊢
    interval_cases d <;> rfl
  · intro mp sp mh ah hcase
    rcases hcase with hmh | hah
    · subst hmh; rfl
    · subst hah
      cases mh <;> rfl
  · intro rel hmissing
    unfold base_score_of
    rw [hmissing]
    rfl

/-- Witness for claim C3 at concrete inputs: houses 1 and 5 give `5/9` (the
spec scenario), a missing major house falls back on planet equality, and an
unknown code scores 70. -/
theorem dasha_relationship_spec_witness :
    get_dasha_relationship "Jup" "Ven" (some 1) (some 5) = "5/9" ∧
    get_dasha_relationship "Jup" "Jup" none (some 3) = "1/1" ∧
    base_score_of "9/9" = 70 := by
  refine ⟨?_, ?_, ?_⟩
  · have h := dasha_relationship_spec.1 "Jup" "Ven" 1 5 (by norm_num)
      (by norm_num) (by norm_num) (by norm_num)
    exact h.trans (by decide)
  · exact (dasha_relationship_spec.2.2.2.2.1 "Jup" "Jup" none (some 3)
      (Or.inl rfl)).trans (by decide)
  · exact dasha_relationship_spec.2.2.2.2.2 "9/9" rfl

/-- Claim C8: for every tracked planet, sign and retrograde flag, the status
multiplier factors as a dignity factor (0.60 for debilitation, else 1.25 for
exaltation, else 1.10 for an own sign, else 1, with that precedence) times a
retrograde factor (0.8 for a retrograde benefic, 1.2 for a retrograde
malefic, 1 otherwise). -/
theorem status_multiplier_spec :
    ∀ p ∈ trackedPlanets, ∀ s ∈ RASI_ORDER, ∀ r : Bool,
      _status_multiplier p s r = spec_dignity_factor p s * spec_retro_factor p r := by
  intro p hp s hs r
  have hnorm : (normalize_planet_name p).getD p = p := by
    fin_cases hp <;> decide
  simp only [_status_multiplier, hnorm]
  have hdig : (if status_debilitated p = some s then (0.60 : ℚ)
      else if status_exalted p = some s then 1.25
      else if s ∈ status_own_signs p then 1.10 else 1.0) =
      spec_dignity_factor p s := by
    unfold spec_dignity_factor
    split_ifs <;> norm_num
  rw [hdig]
  cases r with
  | false =>
    unfold spec_retro_factor
    simp
  | true =>
    unfold spec_retro_factor
    by_cases hb : p ∈ status_benefics
    · simp [hb]
    · by_cases hm : p ∈ status_malefics <;> simp [hb, hm]

/-- Witness for claim C8 at a concrete input: retrograde Saturn in Aries is
debilitated and malefic, so the multiplier is `0.60 * 1.2`. -/
theorem status_multiplier_spec_witness :
    _status_multiplier "Sat" "Ar" true =
      spec_dignity_factor "Sat" "Ar" * spec_retro_factor "Sat" true :=
  status_multiplier_spec "Sat" (by decide) "Ar" (by decide) true

/-- Helper for claim C10: matching one exception entry is symmetric in the
target and obstructor names. -/
theorem exception_entry_match_symm (t o : String) (pair : List String) :
    exception_entry_match t o pair = exception_entry_match o t pair := by
  rcases pair with _ | ⟨pa, _ | ⟨pb, _ | _⟩⟩ <;>
    simp only [exception_entry_match]
  cases normalize_planet_name pa <;> cases normalize_planet_name pb <;>
    simp [Finset.pair_comm t o]

/-- Claim C10: the exception-pair test is symmetric in its two planet
arguments, and an exception entry listed in either order suppresses
equally. -/
theorem exception_pair_symmetric :
    ∀ (t o a b : String) (E : List (List String)),
      _is_exception_pair t o E = _is_exception_pair o t E ∧
      _is_exception_pair t o ([a, b] :: E) =
        _is_exception_pair t o ([b, a] :: E) := by
  intro t o a b E
  constructor
  · unfold _is_exception_pair
    cases hnt : normalize_planet_name t <;> cases hno : normalize_planet_name o <;>
      simp only []
    congr 1
    funext pair
    exact exception_entry_match_symm _ _ pair
  · unfold _is_exception_pair
    cases hnt : normalize_planet_name t <;> cases hno : normalize_planet_name o <;>
      simp only []
    rw [List.any_cons, List.any_cons]
    congr 1
    simp only [exception_entry_match]
    cases normalize_planet_name a <;> cases normalize_planet_name b <;>
      simp [Finset.pair_comm]

/-- Counterexample for claim C6: with a partial `signal_thresholds` override
that omits the `green` key, an index of 72 is classified green even though it
is below the compiled-in default green threshold of 75 — `classify_signal`
falls back to its call-site literal 70, not to the compiled-in 75. -/
theorem rule_fallback_green_counterexample :
    classify_signal (_load_rules (Except.ok partialThresholdsNoGreen)) 72 "Janma"
      = "green" ∧
    ¬ ((75 : ℚ) ≤ 72) := by
  constructor
  · rfl
  · norm_num

/-- Claim C6 as amended: when the configuration source fails to load the
effective rules are exactly the compiled-in defaults, and a configuration
missing the whole `signal_thresholds` key likewise falls back to the
compiled-in table; but a key missing from an overriding `signal_thresholds`
table falls back to the call-site literal default of `classify_signal` — for
the `green` key that literal is 70, not the compiled-in 75. -/
theorem rule_fallback_amended :
    (∀ e : Unit, _load_rules (Except.error e) = DEFAULT_RULES_CFG) ∧
    _load_rules (Except.ok ⟨none⟩) = DEFAULT_RULES_CFG ∧
    (∀ (idx : ℚ) (label : String),
      label ≠ "Naidhana" → label ≠ "Vipat" → label ≠ "Pratyari" →
      classify_signal (_load_rules (Except.ok partialThresholdsNoGreen)) idx label =
        if 70 ≤ idx then "green" else if 60 ≤ idx then "yellow" else "red") := by
  refine ⟨fun e => rfl, rfl, ?_⟩
  intro idx label h1 h2 h3
  unfold classify_signal _load_rules partialThresholdsNoGreen
  simp [h1, h2, h3]

/-- Witness for the amended claim C6 at a concrete input: with the partial
override the operative green threshold is the literal 70, so index 72 with a
neutral label is green. -/
theorem rule_fallback_amended_witness :
    classify_signal (_load_rules (Except.ok partialThresholdsNoGreen)) 72 "Sampat"
      = "green" := by
  have h := rule_fallback_amended.2.2 72 "Sampat" (by decide) (by decide)
    (by decide)
  rw [h]
  norm_num

/-- Helper for claim C1: the obstructor scan of `_vedha_hit` reports a hit as
soon as some transit entry passes every filter. -/
theorem vedha_any_of_qualifying
    (tp br : String) (oh : Int) (exc : List (List String))
    (transits : List (String × String)) (obs obs_rasi obs_n : String) (h : Nat)
    (hmem : (obs, obs_rasi) ∈ transits)
    (hn : normalize_planet_name obs = some obs_n)
    (hmoon : obs_n ≠ "Moon")
    (hshadow : obs_n ∉ (["Rah", "Ket"] : List String))
    (hself : some obs_n ≠ normalize_planet_name tp)
    (hh : house_from_lagna_and_moon br obs_rasi = some h)
    (hoh : (h : Int) = oh)
    (hexc : _is_exception_pair tp obs_n exc = false) :
    transits.any (vedha_entry_hits tp br oh exc) = true := by
  rw [List.any_eq_true]
  refine ⟨(obs, obs_rasi), hmem, ?_⟩
  simp [vedha_entry_hits, hn, hmoon, hshadow, hself, hh, hoh, hexc]

/-- Claim C1: if a planet's blended transit score for a view is positive, a
vedha rule is registered for its house in that view with a scope admitting
the planet, and some other tracked transiting planet (not the Moon, not a
shadow body, not the planet itself) occupies the registered obstructing house
relative to the same reference sign without being an exception pair, then
`_vedha_hit` fires and the post-obstruction score of `compute_gochara_v2` is
exactly 0 (whatever the other view reported). -/
theorem vedha_suppression
    (target : String) (th : Nat) (br : String)
    (transits : List (String × String)) (vrules : String → Option VedhaRule)
    (rule : VedhaRule) (s_l s_c w_l w_c : ℚ) (other_hit : Bool)
    (hrule : vrules (toString th) = some rule)
    (hscope : ¬ (rule.planet_scope.getD "all" = "venus_only" ∧
      normalize_planet_name target ≠ some "Ven"))
    (hobs : ∃ obs obs_rasi obs_n h,
      (obs, obs_rasi) ∈ transits ∧
      normalize_planet_name obs = some obs_n ∧
      obs_n ≠ "Moon" ∧
      obs_n ∉ (["Rah", "Ket"] : List String) ∧
      some obs_n ≠ normalize_planet_name target ∧
      house_from_lagna_and_moon br obs_rasi = some h ∧
      (h : Int) = rule.obstructor_house.getD (-1) ∧
      _is_exception_pair target obs_n (rule.exceptions.getD []) = false)
    (hpos : 0 < s_l * w_l + s_c * w_c) :
    _vedha_hit target (some th) (some br) transits vrules = true ∧
    apply_vedha (s_l * w_l + s_c * w_c)
      (_vedha_hit target (some th) (some br) transits vrules) other_hit = 0 ∧
    apply_vedha (s_l * w_l + s_c * w_c) other_hit
      (_vedha_hit target (some th) (some br) transits vrules) = 0 := by
  obtain ⟨obs, obs_rasi, obs_n, h, hmem, hn, hmoon, hshadow, hself, hh, hoh,
    hexc⟩ := hobs
  have hhit : _vedha_hit target (some th) (some br) transits vrules = true := by
    simp only [_vedha_hit, hrule]
    rw [if_neg hscope]
    exact vedha_any_of_qualifying target br _ _ transits obs obs_rasi obs_n h
      hmem hn hmoon hshadow hself hh hoh hexc
  refine ⟨hhit, ?_, ?_⟩
  · rw [hhit]
    unfold apply_vedha
    rw [if_pos ⟨by simp, hpos⟩]
  · rw [hhit]
    unfold apply_vedha
    rw [if_pos ⟨by simp, hpos⟩]

/-- Witness for claim C1 at a concrete input: Jupiter transiting house 11
from an Aries reference is obstructed by Saturn in house 5 (Leo), so its
positive blended score 1 is forced to 0. -/
theorem vedha_suppression_witness :
    _vedha_hit "Jup" (some 11) (some "Ar") [("Sat", "Le")] vedha_rules_default
      = true ∧
    apply_vedha ((1 : ℚ) * 1 + 0 * 1)
      (_vedha_hit "Jup" (some 11) (some "Ar") [("Sat", "Le")]
        vedha_rules_default) false = 0 := by
  have h := vedha_suppression "Jup" 11 "Ar" [("Sat", "Le")] vedha_rules_default
    ⟨some 5, some "all", some []⟩ 1 0 1 1 false rfl (by decide)
    ⟨"Sat", "Le", "Sat", 5, by decide, by decide, by decide, by decide,
      by decide, by decide, by decide, by decide⟩ (by norm_num)
  exact ⟨h.1, h.2.1⟩

/-- Transitivity of the lexicographic date order. -/
theorem pdate_le_trans {a b c : PDate} (h1 : PDate.le a b) (h2 : PDate.le b c) :
    PDate.le a c := by
  unfold PDate.le at *
  omega

/-- Helper for claim C5: on a timeline sorted by date, the scanning loop of
`get_current_dasha` returns the last entry dated at most `today` when one
exists, and otherwise its accumulator. -/
theorem dasha_scan_eq (today : PDate) :
    ∀ (tl : List DashaEntry) (cur : Option DashaEntry),
      tl.Sorted entry_le →
      dasha_scan today tl cur =
        match (tl.filter fun e => decide (PDate.le e.2.2 today)).getLast? with
        | some e => some e
        | none => cur := by
  intro tl
  induction tl with
  | nil => intro cur _; rfl
  | cons e rest ih =>
    intro cur hs
    rw [List.sorted_cons] at hs
    obtain ⟨hall, hrest⟩ := hs
    by_cases hle : PDate.le e.2.2 today
    · simp only [dasha_scan]
      rw [if_pos hle, ih (some e) hrest]
      have hfe : ((e :: rest).filter fun x => decide (PDate.le x.2.2 today)) =
          e :: rest.filter fun x => decide (PDate.le x.2.2 today) := by
        rw [List.filter_cons]
        simp [hle]
      rw [hfe]
      cases hfr : rest.filter fun x => decide (PDate.le x.2.2 today) with
      | nil => rfl
      | cons y l =>
        rw [List.getLast?_cons_cons]
        cases hgl : (y :: l).getLast? with
        | none => exact absurd (List.getLast?_eq_none_iff.mp hgl) (by simp)
        | some z => rfl
    · simp only [dasha_scan]
      rw [if_neg hle]
      have hnil : ((e :: rest).filter fun x => decide (PDate.le x.2.2 today)) =
          [] := by
        rw [List.filter_eq_nil_iff]
        intro x hx
        simp only [decide_eq_true_eq]
        rcases List.mem_cons.mp hx with hxe | hxr
        · subst hxe; exact hle
        · intro hxle
          exact hle (pdate_le_trans (hall x hxr) hxle)
      rw [hnil]
      rfl

/-- Claim C5: on a non-empty timeline sorted ascending by start date,
`get_current_dasha` selects the last entry whose start date is at most the
query date (the first entry when the query date precedes the whole timeline)
and never fails. -/
theorem current_dasha_lookup_spec
    (timeline : List DashaEntry) (today : PDate)
    (hne : timeline ≠ [])
    (hsorted : timeline.Sorted entry_le) :
    get_current_dasha timeline today = spec_dasha_lookup timeline today ∧
    (get_current_dasha timeline today).isSome = true := by
  obtain ⟨e, rest, rfl⟩ := List.exists_cons_of_ne_nil hne
  unfold get_current_dasha spec_dasha_lookup
  rw [dasha_scan_eq today _ none hsorted]
  cases hfl : ((e :: rest).filter fun x => decide (PDate.le x.2.2 today)).getLast? with
  | some x => simp
  | none => simp

/-- Witness for claim C5 at a concrete timeline with dates
`d1 < d2 < d3`: a query date in `[d1, d2)` selects the `d1` entry and the
lookup succeeds. -/
theorem current_dasha_lookup_spec_witness :
    get_current_dasha demoTimeline ⟨1999, 1, 1⟩ = some ("Jup", "Jup") ∧
    (get_current_dasha demoTimeline ⟨1999, 1, 1⟩).isSome = true := by
  have h := current_dasha_lookup_spec demoTimeline ⟨1999, 1, 1⟩ (by decide)
    (by decide)
  exact ⟨h.1.trans (by decide), h.2⟩

/-- Helper for claim C9: the deduplication pass yields a sublist of its
input. -/
theorem dedup_keep_first_sublist :
    ∀ l seen : List DashaEntry, List.Sublist (dedup_keep_first l seen) l := by
  intro l
  induction l with
  | nil => intro seen; simp [dedup_keep_first]
  | cons e rest ih =>
    intro seen
    unfold dedup_keep_first
    by_cases he : e ∈ seen
    · rw [if_pos he]
      exact (ih seen).cons e
    · rw [if_neg he]
      exact (ih (e :: seen)).cons₂ e

/-- Helper for claim C9: the deduplication pass produces a list without
duplicates, none of whose members lie in the seen accumulator. -/
theorem dedup_keep_first_spec :
    ∀ l seen : List DashaEntry,
      (dedup_keep_first l seen).Nodup ∧
      ∀ x ∈ dedup_keep_first l seen, x ∉ seen := by
  intro l
  induction l with
  | nil => intro seen; simp [dedup_keep_first]
  | cons e rest ih =>
    intro seen
    unfold dedup_keep_first
    by_cases he : e ∈ seen
    · rw [if_pos he]
      exact ih seen
    · rw [if_neg he]
      obtain ⟨hnd, hout⟩ := ih (e :: seen)
      refine ⟨List.nodup_cons.mpr
        ⟨fun hmem => (hout e hmem) (List.mem_cons_self e _), hnd⟩, ?_⟩
      intro x hx
      rcases List.mem_cons.mp hx with rfl | hx2
      · exact he
      · exact fun hxs => (hout x hx2) (List.mem_cons_of_mem e hxs)

/-- Helper for claim C9: deduplicating a non-empty list from an empty seen
set gives a non-empty list. -/
theorem dedup_keep_first_ne_nil (l : List DashaEntry) (hne : l ≠ []) :
    dedup_keep_first l [] ≠ [] := by
  obtain ⟨e, rest, rfl⟩ := List.exists_cons_of_ne_nil hne
  unfold dedup_keep_first
  rw [if_neg (List.not_mem_nil e)]
  simp

/-- Helper for claim C9: a successful pair-scan that starts inside a
maha-start line parses at least its leading pair. -/
theorem scan_antar_pairs_head_ne_nil
    (t0 t1 t2 : String) (rest : List String) (ps : List DashaEntry)
    (h1 : t1 ∈ PLANETS) (h2 : is_date t2 = true)
    (hok : scan_antar_pairs t0 (t1 :: t2 :: rest) = Except.ok ps) :
    ps ≠ [] := by
  unfold scan_antar_pairs at hok
  rw [if_pos ⟨h1, h2⟩] at hok
  cases hdt : date_of_token t2 with
  | none => rw [hdt] at hok; cases hok
  | some d =>
    rw [hdt] at hok
    cases htail : scan_antar_pairs t0 rest with
    | error e => rw [htail] at hok; cases hok
    | ok tail =>
      rw [htail] at hok
      injection hok with h
      rw [← h]
      simp

/-- Helper for claim C9: one successfully processed line only appends parsed
triples to the accumulated items. -/
theorem process_line_append
    (st : Option String × List DashaEntry) (tokens : List String)
    (st' : Option String × List DashaEntry)
    (hok : process_timeline_line st tokens = Except.ok st') :
    ∃ suffix, st'.2 = st.2 ++ suffix := by
  obtain ⟨mh, items⟩ := st
  have hcont : ∀ toks, timeline_continuation (mh, items) toks = Except.ok st' →
      ∃ suffix, st'.2 = items ++ suffix := by
    intro toks hc
    cases mh with
    | none =>
      simp only [timeline_continuation] at hc
      cases hc
    | some m =>
      simp only [timeline_continuation] at hc
      cases hs : scan_antar_pairs m toks with
      | error e => rw [hs] at hc; cases hc
      | ok ps =>
        rw [hs] at hc
        injection hc with h
        exact ⟨ps, by rw [← h]⟩
  rcases tokens with _ | ⟨t0, _ | ⟨t1, _ | ⟨t2, rest⟩⟩⟩
  · simp only [process_timeline_line] at hok
    injection hok with h
    exact ⟨[], by rw [← h]; simp⟩
  · exact hcont [t0] hok
  · exact hcont [t0, t1] hok
  · simp only [process_timeline_line] at hok
    by_cases hc : t0 ∈ PLANETS ∧ t1 ∈ PLANETS ∧ is_date t2 = true
    · rw [if_pos hc] at hok
      cases hs : scan_antar_pairs t0 (t1 :: t2 :: rest) with
      | error e => rw [hs] at hok; cases hok
      | ok ps =>
        rw [hs] at hok
        injection hok with h
        exact ⟨ps, by rw [← h]⟩
    · rw [if_neg hc] at hok
      exact hcont (t0 :: t1 :: t2 :: rest) hok

/-- Helper for claim C9: a successful run of the line loop only appends
parsed triples to the accumulated items. -/
theorem run_timeline_prefix :
    ∀ (lines : List (List String)) (st st' : Option String × List DashaEntry),
      run_timeline_lines st lines = Except.ok st' →
      ∃ suffix, st'.2 = st.2 ++ suffix := by
  intro lines
  induction lines with
  | nil =>
    intro st st' hok
    unfold run_timeline_lines at hok
    injection hok with h
    exact ⟨[], by rw [← h]; simp⟩
  | cons tokens rest ih =>
    intro st st' hok
    unfold run_timeline_lines at hok
    cases hpl : process_timeline_line st tokens with
    | error e => rw [hpl] at hok; cases hok
    | ok st1 =>
      rw [hpl] at hok
      obtain ⟨suf2, hsuf2⟩ := ih st1 st' hok
      obtain ⟨suf1, hsuf1⟩ := process_line_append st tokens st1 hpl
      exact ⟨suf1 ++ suf2, by rw [hsuf2, hsuf1, List.append_assoc]⟩

/-- Helper for claim C9: processing the first non-blank line with no maha
planet seen yet succeeds only on a maha-start line, and then parses at least
one triple. -/
theorem first_line_items_ne_nil
    (t0 : String) (ts : List String) (st1 : Option String × List DashaEntry)
    (hpl : process_timeline_line (none, []) (t0 :: ts) = Except.ok st1) :
    st1.2 ≠ [] := by
  rcases ts with _ | ⟨t1, _ | ⟨t2, rest2⟩⟩
  · simp only [process_timeline_line, timeline_continuation] at hpl
    cases hpl
  · simp only [process_timeline_line, timeline_continuation] at hpl
    cases hpl
  · simp only [process_timeline_line] at hpl
    by_cases hc : t0 ∈ PLANETS ∧ t1 ∈ PLANETS ∧ is_date t2 = true
    · rw [if_pos hc] at hpl
      cases hs : scan_antar_pairs t0 (t1 :: t2 :: rest2) with
      | error e => rw [hs] at hpl; cases hpl
      | ok ps =>
        have hps : ps ≠ [] :=
          scan_antar_pairs_head_ne_nil t0 t1 t2 rest2 ps hc.2.1 hc.2.2 hs
        rw [hs] at hpl
        injection hpl with h
        rw [← h]
        simpa using hps
    · rw [if_neg hc] at hpl
      simp only [timeline_continuation] at hpl
      cases hpl

/-- Helper for claim C9: a successful run of the line loop from the initial
state over a block with at least one non-blank line accumulates at least one
triple. -/
theorem run_timeline_items_ne_nil :
    ∀ (lines : List (List String)) (st' : Option String × List DashaEntry),
      run_timeline_lines (none, []) lines = Except.ok st' →
      (∃ l ∈ lines, l ≠ []) → st'.2 ≠ [] := by
  intro lines
  induction lines with
  | nil =>
    intro st' _ hex
    rcases hex with ⟨l, hl, _⟩
    cases hl
  | cons tokens rest ih =>
    intro st' hok hex
    unfold run_timeline_lines at hok
    cases hpl : process_timeline_line (none, []) tokens with
    | error e => rw [hpl] at hok; cases hok
    | ok st1 =>
      rw [hpl] at hok
      by_cases htok : tokens = []
      · subst htok
        have hst1 : st1 = (none, []) := by
          have hred : process_timeline_line ((none : Option String),
              ([] : List DashaEntry)) [] = Except.ok (none, []) := rfl
          rw [hred] at hpl
          injection hpl with h
          exact h.symm
        subst hst1
        apply ih st' hok
        rcases hex with ⟨l, hl, hlne⟩
        rcases List.mem_cons.mp hl with rfl | hlr
        · exact absurd rfl hlne
        · exact ⟨l, hlr, hlne⟩
      · have hst1 : st1.2 ≠ [] := by
          rcases tokens with _ | ⟨t0, ts⟩
          · exact absurd rfl htok
          · exact first_line_items_ne_nil t0 ts st1 hpl
        obtain ⟨suf, hsuf⟩ := run_timeline_prefix rest st1 st' hok
        rw [hsuf]
        intro hcontra
        rcases List.append_eq_nil.mp hcontra with ⟨h1, _⟩
        exact hst1 h1

/-- Claim C9: whenever `parse_vimsottari_timeline` succeeds on a block with
at least one non-blank line (as `_extract_vimsottari_block` guarantees), the
produced timeline is non-empty, sorted non-decreasing by start date, and free
of duplicate `(maha, antar, startDate)` triples. -/
theorem vimsottari_timeline_invariant
    (lines : List (List String)) (tl : List DashaEntry)
    (hok : parse_vimsottari_timeline lines = Except.ok tl)
    (hblock : ∃ l ∈ lines, l ≠ []) :
    tl ≠ [] ∧ tl.Sorted entry_le ∧ tl.Nodup := by
  unfold parse_vimsottari_timeline at hok
  cases hrun : run_timeline_lines (none, []) lines with
  | error e => rw [hrun] at hok; cases hok
  | ok st =>
    rw [hrun] at hok
    injection hok with h
    subst h
    have hitems : st.2 ≠ [] := run_timeline_items_ne_nil lines st hrun hblock
    have hsorted : (List.insertionSort entry_le st.2).Sorted entry_le :=
      List.sorted_insertionSort entry_le st.2
    have hperm : List.Perm (List.insertionSort entry_le st.2) st.2 :=
      List.perm_insertionSort entry_le st.2
    have hsne : List.insertionSort entry_le st.2 ≠ [] := by
      intro hnil
      rw [hnil] at hperm
      exact hitems (hperm.symm.eq_nil)
    refine ⟨dedup_keep_first_ne_nil _ hsne, ?_, (dedup_keep_first_spec _ []).1⟩
    exact List.Pairwise.sublist (dedup_keep_first_sublist _ []) hsorted

/-- Witness for claim C9 at a concrete two-line block (a maha-start line and
a continuation line): parsing succeeds and the result is non-empty, sorted
and duplicate-free. -/
theorem vimsottari_timeline_invariant_witness :
    demoTl ≠ [] ∧ demoTl.Sorted entry_le ∧ demoTl.Nodup :=
  vimsottari_timeline_invariant demoLines demoTl (by rfl)
    ⟨["Jup", "Jup", "1998-02-01", "Sat", "2000-03-20"], by decide, by decide⟩

end VedicCalendar
